import Mathlib

/-!
Shallow embedding of `src/google/adk/cli/cli_deploy.py`.

The file models the two deployment pipelines `to_cloud_run` and
`to_agent_engine` over an abstract filesystem (a map from path strings to
entries), together with the Dockerfile template renderer and the external
`gcloud` invocation they perform.  Theorems at the end check the claims of
the specification against this embedding.
-/

deriving instance DecidableEq for Except

namespace CliDeploy

/-- A filesystem entry: a regular file with its textual content, or a
directory.  (Directory children are tracked as separate paths.) -/
inductive Entry where
  | file (content : String)
  | dir
deriving DecidableEq, Repr

/-- The filesystem: a flat map from absolute path strings to entries.
`none` means the path does not exist. -/
def FS : Type := String → Option Entry

/-- `os.path.exists`. -/
def pexists (fs : FS) (p : String) : Bool := (fs p).isSome

/-- Whether `p` is a regular file (`copy2` only succeeds on files). -/
def isFileAt (fs : FS) (p : String) : Bool :=
  match fs p with
  | some (Entry.file _) => true
  | _ => false

/-- `os.path.isdir`. -/
def isDirAt (fs : FS) (p : String) : Bool :=
  match fs p with
  | some Entry.dir => true
  | _ => false

/-- Character-list prefix test on strings (used to model path containment
and Dockerfile-line tests). -/
def startsWithM (s pat : String) : Bool := pat.data.isPrefixOf s.data

/-- Character-list suffix test on strings; models Python `str.endswith`. -/
def endsWithM (s pat : String) : Bool := pat.data.isSuffixOf s.data

/-- Drop the first `n` characters of a string. -/
def dropChars (s : String) (n : Nat) : String := String.mk (s.data.drop n)

/-- `q` lies inside the tree rooted at `root` (it is `root` itself or a
path strictly below it). -/
def pathUnder (root q : String) : Bool :=
  q == root || startsWithM q (root ++ "/")

/-- `shutil.rmtree`: remove the whole tree rooted at `root`. -/
def rmtreeFn (fs : FS) (root : String) : FS :=
  fun q => if pathUnder root q then none else fs q

/-- `os.makedirs(p, exist_ok=True)` (intermediate parents are not
tracked by the flat model). -/
def makedirs (fs : FS) (p : String) : FS :=
  fun q => if q == p then some Entry.dir else fs q

/-- `shutil.copy2(src, dst)`: byte copy of one file. -/
def copyFile (fs : FS) (src dst : String) : FS :=
  fun q => if q == dst then fs src else fs q

/-- `open(p, 'w').write(content)`. -/
def writeFile (fs : FS) (p content : String) : FS :=
  fun q => if q == p then some (Entry.file content) else fs q

/-- `shutil.copytree(src, dst)`: the tree below `dst` mirrors the tree
below `src`. -/
def copytreeFn (fs : FS) (src dst : String) : FS :=
  fun q =>
    if q == dst then some Entry.dir
    else if startsWithM q (dst ++ "/") then
      fs (src ++ "/" ++ dropChars q (dst.length + 1))
    else fs q

/-- The `if os.path.exists(temp_folder): shutil.rmtree(temp_folder)`
prologue shared by both pipelines. -/
def cleanTemp (p : String) (fs : FS) : FS :=
  if pexists fs p then rmtreeFn fs p else fs

/-- Python truthiness of an `Optional[str]`. -/
def optTruthy : Option String → Bool
  | none => false
  | some s => !(s == "")

/-- How Python's `str.format` renders an `Optional[str]` field (`None`
becomes the text `"None"`). -/
def optStr : Option String → String
  | none => "None"
  | some s => s

/-- `os.path.basename`: the characters after the last `/`. -/
def basename (p : String) : String :=
  String.mk ((p.data.reverse.takeWhile (fun c => !(c == '/'))).reverse)

/-- Lexicographic (code-point) order on character lists, as Python
compares strings. -/
def lexLt : List Char → List Char → Bool
  | [], [] => false
  | [], _ :: _ => true
  | _ :: _, [] => false
  | a :: as, b :: bs => if a < b then true else if b < a then false else lexLt as bs

/-- Python's `a > b` on strings. -/
def strGt (a b : String) : Bool := lexLt b.data a.data

/-- `'--host=0.0.0.0' if adk_version > '0.5.0' else ''` (line 205). -/
def host_option (adk_version : String) : String :=
  if strGt adk_version "0.5.0" then "--host=0.0.0.0" else ""

/-- `f'--session_db_url={session_db_url}' if session_db_url else ''`. -/
def session_db_option (u : String) : String :=
  if !(u == "") then "--session_db_url=" ++ u else ""

/-- `'--trace_to_cloud' if trace_to_cloud else ''`. -/
def trace_to_cloud_option (b : Bool) : String :=
  if b then "--trace_to_cloud" else ""

/-- `'web' if with_ui else 'api_server'`. -/
def commandOption (with_ui : Bool) : String :=
  if with_ui then "web" else "api_server"

/-- The dependency-install instruction for the staged source-tree
manifest (line 188). -/
def agentDepsLine (app : String) : String :=
  "RUN pip install -r \"/app/agents/" ++ (app ++ "/requirements.txt\"")

/-- `install_agent_deps` (lines 187-191): the install line when the copied
source tree has a `requirements.txt`, the empty string otherwise. -/
def install_agent_deps (present : Bool) (app : String) : String :=
  if present then agentDepsLine app else ""

/-- First line of `install_additional_deps` (line 200). -/
def extraCopyLine : String :=
  "COPY \"extra-requirements.txt\" \"/app/extra-requirements.txt\""

/-- Second line of `install_additional_deps` (line 200). -/
def extraRunLine : String :=
  "RUN pip install -r \"/app/extra-requirements.txt\""

/-- `install_additional_deps` as the lines it contributes to the rendered
template: two lines when an additional manifest was staged, one empty
line (the empty string slot) otherwise. -/
def install_additional_deps (present : Bool) : List String :=
  if present then [extraCopyLine, extraRunLine] else [""]

/-- The caller-supplied parameters of `to_cloud_run` (its keyword
arguments, lines 97-115). -/
structure CloudRunArgs where
  agent_whl_file : String
  agent_source_dir : String
  project : Option String
  region : Option String
  service_name : String
  app_name : String
  temp_folder : String
  port : Nat
  trace_to_cloud : Bool
  with_ui : Bool
  verbosity : String
  session_db_url : String
  artifact_storage_uri : Option String
  adk_version : String
  agent_module : Option String := none
  additional_requirements : Option String := none
deriving DecidableEq

/-- `_DOCKERFILE_TEMPLATE` (lines 23-69) after substitution, line by line.
`agentReq` is the `os.path.exists(requirements_txt_path)` condition of
line 189 and `addReq` the `additional_requirements and os.path.exists(...)`
condition of line 196; both fragments are passed to the template as plain
strings.  `artifact_storage_uri`, `agent_module` and `adk_version` are
passed to `str.format` by the source but the template has no placeholder
for them (`adk_version` only enters through `host_option`). -/
def dockerfileLines (a : CloudRunArgs) (agentReq addReq : Bool) : List String :=
  ["",
   "FROM python:3.11-slim",
   "WORKDIR /app",
   "",
   "# Install git and clean up apt cache",
   "RUN apt-get update && apt-get install -y git && rm -rf /var/lib/apt/lists/*",
   "",
   "# Create a non-root user",
   "RUN adduser --disabled-password --gecos \"\" myuser",
   "",
   "# Change ownership of /app to myuser",
   "RUN chown -R myuser:myuser /app",
   "",
   "# Switch to the non-root user",
   "USER myuser",
   "",
   "# Set up environment variables - Start",
   "ENV PATH=\"/home/myuser/.local/bin:$PATH\"",
   "",
   "ENV GOOGLE_GENAI_USE_VERTEXAI=1",
   "ENV GOOGLE_CLOUD_PROJECT=" ++ optStr a.project,
   "ENV GOOGLE_CLOUD_LOCATION=" ++ optStr a.region,
   "",
   "# Set up environment variables - End",
   "",
   "# Install ADK - Start",
   "RUN pip install git+https://github.com/gabriel-pineda/adk-python.git@main",
   "# Install ADK - End",
   "",
   "# Install agent from wheel - Start",
   "COPY \"" ++ (basename a.agent_whl_file ++ ("\" \"/app/" ++ (basename a.agent_whl_file ++ "\""))),
   "RUN pip install \"/app/" ++ (basename a.agent_whl_file ++ "\""),
   "# Install agent from wheel - End",
   "",
   "# Copy agent source files - Start",
   "COPY \"agents/" ++ (a.app_name ++ ("/\" \"/app/agents/" ++ (a.app_name ++ "/\""))),
   install_agent_deps agentReq a.app_name,
   "# Copy agent source files - End",
   "",
   "# Install additional dependencies - Start"]
  ++ install_additional_deps addReq ++
  ["# Install additional dependencies - End",
   "",
   "EXPOSE " ++ toString a.port,
   "",
   "CMD adk " ++ (commandOption a.with_ui ++ (" --port=" ++ (toString a.port ++ (" " ++ (host_option a.adk_version ++ (" " ++ (session_db_option a.session_db_url ++ (" " ++ (trace_to_cloud_option a.trace_to_cloud ++ " \"/app/agents\""))))))))),
   ""]

/-- `dockerfile_content` (lines 206-225): the text written to
`Dockerfile`. -/
def dockerfile_content (a : CloudRunArgs) (agentReq addReq : Bool) : String :=
  String.intercalate "\n" (dockerfileLines a agentReq addReq)

/-- A rendered line counts as a dependency-install instruction when it
starts with `RUN pip install -r`. -/
def isInstallLine (l : String) : Bool := startsWithM l "RUN pip install -r"

/-- The ambient environment of a `to_cloud_run` call: the project id the
local `gcloud config` would report, and whether the external
`gcloud run deploy` subprocess exits successfully. -/
structure Env where
  defaultProject : String
  deployOk : Bool
deriving DecidableEq

/-- How a `to_cloud_run` call can fail. -/
inductive CRErr where
  /-- One of the four `click.ClickException`s of lines 145-155. -/
  | validation (msg : String)
  /-- A `shutil.copy2` / `shutil.copytree` failure inside the `try` block. -/
  | copyFailed
  /-- The `gcloud run deploy` subprocess returned nonzero (`check=True`). -/
  | deployFailed
  /-- The `shutil.rmtree` in the `finally` block itself raised. -/
  | cleanupFailed
deriving DecidableEq

/-- Observable outcome of a `to_cloud_run` call: the propagated result,
the final filesystem, every `subprocess.run` argument list in call order,
and the Dockerfile text handed to `f.write` (if rendering was reached). -/
structure CRResult where
  res : Except CRErr Unit
  fs : FS
  invocations : List (List String)
  dockerfile : Option String

/-- `_resolve_project` (lines 82-94): keep a truthy explicit project,
otherwise query `gcloud config get-value project`.  Returns the resolved
project and the subprocess invocations performed. -/
def resolveProjectCalls (o : Option String) (env : Env) : String × List (List String) :=
  if optTruthy o then (o.getD "", [])
  else (env.defaultProject, [["gcloud", "config", "get-value", "project"]])

/-- `_resolve_project`, result only. -/
def resolveProject (o : Option String) (env : Env) : String :=
  (resolveProjectCalls o env).1

/-- The `gcloud run deploy` argument list of lines 237-256. -/
def deployCommand (a : CloudRunArgs) (proj : String) : List String :=
  ["gcloud", "run", "deploy", a.service_name,
   "--source", a.temp_folder,
   "--project", proj]
  ++ (if optTruthy a.region then ["--region", a.region.getD ""] else [])
  ++ ["--port", toString a.port,
      "--verbosity", a.verbosity,
      "--labels", "created-by=adk"]

/-- Recognises a `gcloud run deploy` invocation (as opposed to the
`gcloud config get-value project` query of `_resolve_project`). -/
def isDeployCall (c : List String) : Bool := c.take 3 == ["gcloud", "run", "deploy"]

/-- The deploy invocations recorded by a run. -/
def deployCalls (r : CRResult) : List (List String) := r.invocations.filter isDeployCall

/-- Destination of the staged copy of the source tree:
`os.path.join(temp_folder, 'agents', app_name)` (line 182). -/
def agentSrcPath (a : CloudRunArgs) : String :=
  a.temp_folder ++ "/agents/" ++ a.app_name

/-- Filesystem right after `os.makedirs(temp_folder)` (line 172),
including the pre-`try` removal of a stale staging directory
(lines 166-168). -/
def stagedFs1 (a : CloudRunArgs) (fs : FS) : FS :=
  makedirs (cleanTemp a.temp_folder fs) a.temp_folder

/-- Filesystem after copying the wheel file (line 177). -/
def stagedFs2 (a : CloudRunArgs) (fs : FS) : FS :=
  copyFile (stagedFs1 a fs) a.agent_whl_file
    (a.temp_folder ++ "/" ++ basename a.agent_whl_file)

/-- Filesystem after copying the source tree (line 183). -/
def stagedFs3 (a : CloudRunArgs) (fs : FS) : FS :=
  copytreeFn (stagedFs2 a fs) a.agent_source_dir (agentSrcPath a)

/-- The `os.path.exists(requirements_txt_path)` condition of line 189:
does the copied source tree contain a `requirements.txt`? -/
def stagedReqBit (a : CloudRunArgs) (fs : FS) : Bool :=
  pexists (stagedFs3 a fs) (agentSrcPath a ++ "/requirements.txt")

/-- The `additional_requirements and os.path.exists(...)` condition of
line 196. -/
def addBit (a : CloudRunArgs) (fs : FS) : Bool :=
  optTruthy a.additional_requirements
    && pexists (stagedFs3 a fs) (a.additional_requirements.getD "")

/-- The `try` block of `to_cloud_run` (lines 170-256), from the creation
of the staging directory up to the external deploy command.  Every branch
returns the filesystem as it stands at that exit point, so that the
`finally` handler can be applied to it. -/
def cloudRunTry (a : CloudRunArgs) (fs : FS) (env : Env) : CRResult :=
  if isFileAt (stagedFs1 a fs) a.agent_whl_file then
    if isDirAt (stagedFs2 a fs) a.agent_source_dir
        && !(pexists (stagedFs2 a fs) (agentSrcPath a)) then
      if !(addBit a fs) || isFileAt (stagedFs3 a fs) (a.additional_requirements.getD "") then
        let fs4 :=
          if addBit a fs then
            copyFile (stagedFs3 a fs) (a.additional_requirements.getD "")
              (a.temp_folder ++ "/extra-requirements.txt")
          else stagedFs3 a fs
        let content := dockerfile_content a (stagedReqBit a fs) (addBit a fs)
        let fs5 := writeFile fs4 (a.temp_folder ++ "/Dockerfile") content
        let pc := resolveProjectCalls a.project env
        let invs := pc.2 ++ [deployCommand a pc.1]
        if env.deployOk then ⟨Except.ok (), fs5, invs, some content⟩
        else ⟨Except.error CRErr.deployFailed, fs5, invs, some content⟩
      else ⟨Except.error CRErr.copyFailed, stagedFs3 a fs, [], none⟩
    else ⟨Except.error CRErr.copyFailed, stagedFs2 a fs, [], none⟩
  else ⟨Except.error CRErr.copyFailed, stagedFs1 a fs, [], none⟩

/-- The `finally` block (lines 257-259): `shutil.rmtree(temp_folder)`,
unconditionally.  If the staging directory is already absent the
`rmtree` itself raises, replacing the in-flight result (Python `finally`
semantics). -/
def finalizeCR (t : CRResult) (p : String) : CRResult :=
  if pexists t.fs p then { t with fs := rmtreeFn t.fs p }
  else { t with res := Except.error CRErr.cleanupFailed }

/-- `to_cloud_run` (lines 97-259): validation, staging, rendering, deploy
and guaranteed cleanup, over the abstract filesystem. -/
def to_cloud_run (a : CloudRunArgs) (fs : FS) (env : Env) : CRResult :=
  if !(pexists fs a.agent_whl_file) then
    ⟨Except.error (CRErr.validation ("Agent wheel file not found: " ++ a.agent_whl_file)),
     fs, [], none⟩
  else if !(endsWithM a.agent_whl_file ".whl") then
    ⟨Except.error (CRErr.validation ("Expected a .whl file, got: " ++ a.agent_whl_file)),
     fs, [], none⟩
  else if !(pexists fs a.agent_source_dir) then
    ⟨Except.error (CRErr.validation ("Agent source directory not found: " ++ a.agent_source_dir)),
     fs, [], none⟩
  else if !(isDirAt fs a.agent_source_dir) then
    ⟨Except.error (CRErr.validation ("Agent source path is not a directory: " ++ a.agent_source_dir)),
     fs, [], none⟩
  else
    finalizeCR (cloudRunTry a fs env) a.temp_folder

/-- The four validation checks of lines 145-155, as one condition. -/
def validationOk (a : CloudRunArgs) (fs : FS) : Bool :=
  pexists fs a.agent_whl_file
    && endsWithM a.agent_whl_file ".whl"
    && pexists fs a.agent_source_dir
    && isDirAt fs a.agent_source_dir

/-- All staging steps inside the `try` block succeed (the wheel is a
regular file, the source tree copy is possible, and an additional
manifest, when staged, is a regular file). -/
def stagingOk (a : CloudRunArgs) (fs : FS) : Bool :=
  isFileAt (stagedFs1 a fs) a.agent_whl_file
    && (isDirAt (stagedFs2 a fs) a.agent_source_dir
        && !(pexists (stagedFs2 a fs) (agentSrcPath a)))
    && (!(addBit a fs) || isFileAt (stagedFs3 a fs) (a.additional_requirements.getD ""))

/-- The caller-supplied parameters of `to_agent_engine` (lines 262-273). -/
structure AgentEngineArgs where
  agent_folder : String
  temp_folder : String
  adk_app : String
  project : String
  region : String
  staging_bucket : String
  trace_to_cloud : Bool
  requirements_file : Option String := none
  env_file : Option String := none
deriving DecidableEq

/-- Ambient environment of a `to_agent_engine` call: whether the
`agent_engines.create` SDK call succeeds. -/
structure AEEnv where
  createOk : Bool
deriving DecidableEq

/-- How a `to_agent_engine` call can fail. -/
inductive AEErr where
  /-- `shutil.copytree(agent_folder, temp_folder)` raised. -/
  | copyFailed
  /-- The `agent_engines.create` SDK call raised. -/
  | createFailed
  /-- The `finally` `rmtree` raised because the staging directory was never
  created; per Python `finally` semantics it replaces the copy failure
  that was propagating. -/
  | cleanupFailedAfterCopy
  /-- The `finally` `rmtree` raised in any other state. -/
  | cleanupFailed
deriving DecidableEq

/-- The arguments handed to `agent_engines.create` (lines 392-397),
together with the content of the resolved requirements manifest at
resolution time. -/
structure CreateCall where
  requirements : String
  requirementsEntry : Option Entry
  envVarsFrom : Option String
  extraPackages : List String
deriving DecidableEq

/-- Observable outcome of a `to_agent_engine` call. -/
structure AEResult where
  res : Except AEErr Unit
  fs : FS
  created : Option CreateCall

/-- The fixed package set written into a generated default
`requirements.txt` (line 344). -/
def defaultRequirements : String := "google-cloud-aiplatform[adk,agent_engines]"

/-- `_AGENT_ENGINE_APP_TEMPLATE` (lines 71-79) after substitution
(a Python `bool` formats as `True`/`False`). -/
def agentEngineApp (trace : Bool) : String :=
  "\nfrom agent import root_agent\nfrom vertexai.preview.reasoning_engines import AdkApp\n\nadk_app = AdkApp(\n  agent=root_agent,\n  enable_tracing="
    ++ ((if trace then "True" else "False") ++ ",\n)\n")

/-- Filesystem after `shutil.copytree(agent_folder, temp_folder)`
(line 319), including the pre-`try` removal of a stale staging directory
(lines 313-315). -/
def aeStagedFs (a : AgentEngineArgs) (fs : FS) : FS :=
  copytreeFn (cleanTemp a.temp_folder fs) a.agent_folder a.temp_folder

/-- The `copytree` of line 319 succeeds: the agent folder is a directory
and the destination is free. -/
def aeCopyOk (a : AgentEngineArgs) (fs : FS) : Bool :=
  isDirAt (cleanTemp a.temp_folder fs) a.agent_folder
    && !(pexists (cleanTemp a.temp_folder fs) a.temp_folder)

/-- The `try` block of `to_agent_engine` (lines 317-397): copy the agent
folder (the function performs no validation of its own), resolve the
requirements manifest (lines 337-346), resolve the env file (lines
347-355), write the app shim (lines 357-366) and call
`agent_engines.create`.  `vertexai.init` and `sys.path.append` touch no
modelled state. -/
def agentEngineTry (a : AgentEngineArgs) (fs : FS) (env : AEEnv) : AEResult :=
  if aeCopyOk a fs then
    let fs1 := aeStagedFs a fs
    let rq := a.temp_folder ++ "/requirements.txt"
    let reqPath := if optTruthy a.requirements_file then a.requirements_file.getD "" else rq
    let fs2 :=
      if optTruthy a.requirements_file then fs1
      else if pexists fs1 rq then fs1
      else writeFile fs1 rq defaultRequirements
    let envPath := if optTruthy a.env_file then a.env_file.getD "" else a.temp_folder ++ "/.env"
    let envVars := if pexists fs2 envPath then some envPath else none
    let fs3 := writeFile fs2 (a.temp_folder ++ "/" ++ a.adk_app ++ ".py")
        (agentEngineApp a.trace_to_cloud)
    let call : CreateCall := ⟨reqPath, fs2 reqPath, envVars, [a.temp_folder]⟩
    if env.createOk then ⟨Except.ok (), fs3, some call⟩
    else ⟨Except.error AEErr.createFailed, fs3, some call⟩
  else ⟨Except.error AEErr.copyFailed, cleanTemp a.temp_folder fs, none⟩

/-- The `finally` block of `to_agent_engine` (lines 398-400). -/
def finalizeAE (t : AEResult) (p : String) : AEResult :=
  if pexists t.fs p then { t with fs := rmtreeFn t.fs p }
  else
    { t with
      res := Except.error (match t.res with
        | Except.error AEErr.copyFailed => AEErr.cleanupFailedAfterCopy
        | _ => AEErr.cleanupFailed) }

/-- `to_agent_engine` (lines 262-400) over the abstract filesystem. -/
def to_agent_engine (a : AgentEngineArgs) (fs : FS) (env : AEEnv) : AEResult :=
  finalizeAE (agentEngineTry a fs env) a.temp_folder

/-! Concrete fixtures used by scenario theorems and witnesses. -/

/-- A valid Deployment Request: existing wheel, existing source directory
with a `requirements.txt`, app name `myagent`, port 8080, UI disabled. -/
def a8 : CloudRunArgs :=
  { agent_whl_file := "/build/agent.whl"
    agent_source_dir := "/src/myagent"
    project := some "proj"
    region := some "us-central1"
    service_name := "svc"
    app_name := "myagent"
    temp_folder := "/tmp/stage"
    port := 8080
    trace_to_cloud := false
    with_ui := false
    verbosity := "info"
    session_db_url := ""
    artifact_storage_uri := none
    adk_version := "1.0.0" }

/-- Filesystem matching `a8`: the wheel is a file, the source directory is
a directory containing a `requirements.txt`. -/
def fs8 : FS := fun q =>
  if q = "/build/agent.whl" then some (Entry.file "wheelbytes")
  else if q = "/src/myagent" then some Entry.dir
  else if q = "/src/myagent/requirements.txt" then some (Entry.file "deps")
  else none

/-- Environment whose `gcloud config` project is `dp` and whose deploy
subprocess succeeds. -/
def envW : Env := ⟨"dp", true⟩

/-- The request `a8` with target-runtime version string `0.4.9`
and port 80. -/
def a049 : CloudRunArgs := { a8 with adk_version := "0.4.9", port := 80 }

/-- An agent-engine request with no explicit requirements file. -/
def aeA : AgentEngineArgs :=
  { agent_folder := "/agent"
    temp_folder := "/t"
    adk_app := "my_app"
    project := "p"
    region := "r"
    staging_bucket := "b"
    trace_to_cloud := false }

/-- Filesystem for `aeA` whose agent folder carries its own
`requirements.txt` with content `custom-package`. -/
def fsAeReq : FS := fun q =>
  if q = "/agent" then some Entry.dir
  else if q = "/agent/requirements.txt" then some (Entry.file "custom-package")
  else none

/-- Filesystem for `aeA` whose agent folder has no `requirements.txt`. -/
def fsAeNoReq : FS := fun q => if q = "/agent" then some Entry.dir else none

/-- An agent-engine request whose agent folder does not exist. -/
def aeMissing : AgentEngineArgs :=
  { agent_folder := "/missing"
    temp_folder := "/t"
    adk_app := "app"
    project := "p"
    region := "r"
    staging_bucket := "b"
    trace_to_cloud := false }

/-- Filesystem for `aeMissing` in which the staging directory `/t` is a
leftover from a previous run. -/
def fsStale : FS := fun q =>
  if q = "/t" then some Entry.dir
  else if q = "/t/x.py" then some (Entry.file "f")
  else none

/-! Helper lemmas. -/

/-- A prefix test does not look past the length of the pattern. -/
lemma isPrefixOf_append_of_le {pat xs : List Char} (ys : List Char)
    (h : pat.length ≤ xs.length) :
    pat.isPrefixOf (xs ++ ys) = pat.isPrefixOf xs := by
  have key : pat <+: xs ++ ys ↔ pat <+: xs := by
    constructor
    · intro hp
      have ht := (List.prefix_iff_eq_take.mp hp).symm
      rw [List.take_append_of_le_length h] at ht
      rw [← ht]
      exact List.take_prefix _ _
    · intro hp
      exact hp.trans (List.prefix_append xs ys)
  rw [← List.isPrefixOf_iff_prefix, ← List.isPrefixOf_iff_prefix] at key
  cases hb : pat.isPrefixOf (xs ++ ys) <;> cases hc : pat.isPrefixOf xs <;> simp_all

/-- A prefix test fails as soon as the head characters differ. -/
lemma isPrefixOf_cons_append_ne {c d : Char} (p a b : List Char) (h : (c == d) = false) :
    (c :: p).isPrefixOf ((d :: a) ++ b) = false := by
  simp [List.isPrefixOf, h]

/-- Lifting `isPrefixOf_append_of_le` to rendered-line strings. -/
lemma startsWithM_append_long (lit s pat : String) (h : pat.length ≤ lit.length) :
    startsWithM (lit ++ s) pat = startsWithM lit pat := by
  unfold startsWithM
  rw [String.data_append]
  exact isPrefixOf_append_of_le _ h

/-- The `ENV GOOGLE_CLOUD_PROJECT=...` line is not an install line. -/
lemma isInstall_envProj (s : String) :
    isInstallLine ("ENV GOOGLE_CLOUD_PROJECT=" ++ s) = false := by
  unfold isInstallLine
  rw [startsWithM_append_long _ _ _ (by decide)]
  decide

/-- The `ENV GOOGLE_CLOUD_LOCATION=...` line is not an install line. -/
lemma isInstall_envLoc (s : String) :
    isInstallLine ("ENV GOOGLE_CLOUD_LOCATION=" ++ s) = false := by
  unfold isInstallLine
  rw [startsWithM_append_long _ _ _ (by decide)]
  decide

/-- The `RUN pip install "/app/<wheel>"` line installs the wheel, not a
requirements manifest. -/
lemma isInstall_runWhl (s : String) :
    isInstallLine ("RUN pip install \"/app/" ++ s) = false := by
  unfold isInstallLine
  rw [startsWithM_append_long _ _ _ (by decide)]
  decide

/-- The `COPY "<wheel>" ...` line is not an install line. -/
lemma isInstall_copyShort (s : String) : isInstallLine ("COPY \"" ++ s) = false := by
  unfold isInstallLine startsWithM
  rw [String.data_append]
  show List.isPrefixOf ('R' :: "UN pip install -r".data)
    (('C' :: "OPY \"".data) ++ s.data) = false
  exact isPrefixOf_cons_append_ne _ _ _ (by decide)

/-- The `COPY "agents/..."` line is not an install line. -/
lemma isInstall_copyAgents (s : String) :
    isInstallLine ("COPY \"agents/" ++ s) = false := by
  unfold isInstallLine startsWithM
  rw [String.data_append]
  show List.isPrefixOf ('R' :: "UN pip install -r".data)
    (('C' :: "OPY \"agents/".data) ++ s.data) = false
  exact isPrefixOf_cons_append_ne _ _ _ (by decide)

/-- The `EXPOSE <port>` line is not an install line. -/
lemma isInstall_expose (s : String) : isInstallLine ("EXPOSE " ++ s) = false := by
  unfold isInstallLine startsWithM
  rw [String.data_append]
  show List.isPrefixOf ('R' :: "UN pip install -r".data)
    (('E' :: "XPOSE ".data) ++ s.data) = false
  exact isPrefixOf_cons_append_ne _ _ _ (by decide)

/-- The `CMD adk ...` startup line is not an install line. -/
lemma isInstall_cmd (s : String) : isInstallLine ("CMD adk " ++ s) = false := by
  unfold isInstallLine startsWithM
  rw [String.data_append]
  show List.isPrefixOf ('R' :: "UN pip install -r".data)
    (('C' :: "MD adk ".data) ++ s.data) = false
  exact isPrefixOf_cons_append_ne _ _ _ (by decide)

/-- The rendered source-tree install line is an install line. -/
lemma isInstall_agentDepsLine (s : String) :
    isInstallLine ("RUN pip install -r \"/app/agents/" ++ s) = true := by
  unfold isInstallLine
  rw [startsWithM_append_long _ _ _ (by decide)]
  decide

/-- A path whose existence test fails maps to `none`. -/
lemma pexists_eq_false {fs : FS} {p : String} (h : pexists fs p = false) : fs p = none := by
  unfold pexists at h
  cases hf : fs p
  · rfl
  · rw [hf] at h
    simp at h

/-- `rmtree` removes the root it is applied to. -/
lemma rmtree_self (fs : FS) (p : String) : rmtreeFn fs p p = none := by
  unfold rmtreeFn pathUnder
  simp

/-- After the `finally` handler the staging directory is gone: either the
`rmtree` removed it, or it was already absent (and the `rmtree` raised). -/
lemma finalizeCR_fs (t : CRResult) (p : String) : (finalizeCR t p).fs p = none := by
  unfold finalizeCR
  split
  · exact rmtree_self _ _
  · next h => exact pexists_eq_false (by simpa using h)

/-- Counterpart of `finalizeCR_fs` for `to_agent_engine`. -/
lemma finalizeAE_fs (t : AEResult) (p : String) : (finalizeAE t p).fs p = none := by
  unfold finalizeAE
  split
  · exact rmtree_self _ _
  · next h => exact pexists_eq_false (by simpa using h)

/-- The `finally` handler performs no subprocess invocation. -/
lemma finalizeCR_invocations (t : CRResult) (p : String) :
    (finalizeCR t p).invocations = t.invocations := by
  unfold finalizeCR
  split <;> rfl

/-- The `finally` handler does not change the rendered Dockerfile. -/
lemma finalizeCR_dockerfile (t : CRResult) (p : String) :
    (finalizeCR t p).dockerfile = t.dockerfile := by
  unfold finalizeCR
  split <;> rfl

/-- The `finally` handler does not change the recorded `create` call. -/
lemma finalizeAE_created (t : AEResult) (p : String) :
    (finalizeAE t p).created = t.created := by
  unfold finalizeAE
  split <;> rfl

/-- Whenever `to_cloud_run` renders a Dockerfile at all, the text is the
template applied to the request and the two staged-tree conditions. -/
lemma dockerfile_of_some (a : CloudRunArgs) (fs : FS) (env : Env) (d : String)
    (h : (to_cloud_run a fs env).dockerfile = some d) :
    d = dockerfile_content a (stagedReqBit a fs) (addBit a fs) := by
  unfold to_cloud_run at h
  split at h
  · simp at h
  · split at h
    · simp at h
    · split at h
      · simp at h
      · split at h
        · simp at h
        · rw [finalizeCR_dockerfile] at h
          unfold cloudRunTry at h
          split at h
          · split at h
            · split at h
              · split at h <;> split at h <;> (simp at h; exact h.symm)
              · simp at h
            · simp at h
          · simp at h

/-! Claim theorems. -/

/-- C1: for every valid Deployment Request the staging directory
(`temp_folder`) is absent after the call returns, whether the call
succeeded or the external invocation failed: the `finally` cleanup runs
on every exit path of `to_cloud_run` (once validation has passed and
staging begun) and of `to_agent_engine`. -/
theorem claim1_cleanup_invariant :
    (∀ (a : CloudRunArgs) (fs : FS) (env : Env), validationOk a fs = true →
      (to_cloud_run a fs env).fs a.temp_folder = none)
    ∧ (∀ (a : AgentEngineArgs) (fs : FS) (env : AEEnv),
      (to_agent_engine a fs env).fs a.temp_folder = none) := by
  constructor
  · intro a fs env h
    unfold validationOk at h
    simp only [Bool.and_eq_true] at h
    obtain ⟨⟨⟨h1, h2⟩, h3⟩, h4⟩ := h
    simp only [to_cloud_run, h1, h2, h3, h4, Bool.not_true, Bool.false_eq_true, if_false]
    exact finalizeCR_fs _ _
  · intro a fs env
    exact finalizeAE_fs _ _

/-- C1 witness: concrete runs of both pipelines, with the deploy step
succeeding in one and the `create` step failing in the other, leave no
staging directory behind. -/
theorem claim1_witness :
    (to_cloud_run a8 fs8 envW).fs a8.temp_folder = none
    ∧ (to_agent_engine aeA fsAeReq ⟨false⟩).fs aeA.temp_folder = none :=
  ⟨claim1_cleanup_invariant.1 a8 fs8 envW (by decide),
   claim1_cleanup_invariant.2 aeA fsAeReq ⟨false⟩⟩

/-- C2: each of the four validation failures of `to_cloud_run` (missing
wheel, wrong extension, missing source directory, source path not a
directory) produces a validation error whose message names the offending
path, with the filesystem unchanged (no staging directory created, no
pre-existing one removed) and no subprocess invoked. -/
theorem claim2_validation_before_mutation : ∀ (a : CloudRunArgs) (fs : FS) (env : Env),
    (pexists fs a.agent_whl_file = false →
      to_cloud_run a fs env =
        ⟨Except.error (CRErr.validation ("Agent wheel file not found: " ++ a.agent_whl_file)),
         fs, [], none⟩)
    ∧ (pexists fs a.agent_whl_file = true → endsWithM a.agent_whl_file ".whl" = false →
      to_cloud_run a fs env =
        ⟨Except.error (CRErr.validation ("Expected a .whl file, got: " ++ a.agent_whl_file)),
         fs, [], none⟩)
    ∧ (pexists fs a.agent_whl_file = true → endsWithM a.agent_whl_file ".whl" = true →
        pexists fs a.agent_source_dir = false →
      to_cloud_run a fs env =
        ⟨Except.error (CRErr.validation
            ("Agent source directory not found: " ++ a.agent_source_dir)),
         fs, [], none⟩)
    ∧ (pexists fs a.agent_whl_file = true → endsWithM a.agent_whl_file ".whl" = true →
        pexists fs a.agent_source_dir = true → isDirAt fs a.agent_source_dir = false →
      to_cloud_run a fs env =
        ⟨Except.error (CRErr.validation
            ("Agent source path is not a directory: " ++ a.agent_source_dir)),
         fs, [], none⟩) := by
  intro a fs env
  refine ⟨?_, ?_, ?_, ?_⟩
  · intro h1
    simp [to_cloud_run, h1]
  · intro h1 h2
    simp [to_cloud_run, h1, h2]
  · intro h1 h2 h3
    simp [to_cloud_run, h1, h2, h3]
  · intro h1 h2 h3 h4
    simp [to_cloud_run, h1, h2, h3, h4]

/-- C2 witness: on an empty filesystem the request `a8` fails with the
wheel-not-found validation error and mutates nothing. -/
theorem claim2_witness :
    to_cloud_run a8 (fun _ => none) envW =
      ⟨Except.error (CRErr.validation ("Agent wheel file not found: " ++ a8.agent_whl_file)),
       (fun _ => none), [], none⟩ :=
  (claim2_validation_before_mutation a8 (fun _ => none) envW).1 (by decide)

/-- C3 counterexample: with target-runtime version string `0.4.9` the
lexicographic comparison against the threshold `0.5.0` evaluates as
less-than (`'4' < '5'` at the third character), so the claim that the
comparison evaluates greater-or-equal and that `--host=0.0.0.0` is
included is false: the rendered host option is empty. -/
theorem claim3_counterexample :
    strGt "0.4.9" "0.5.0" = false
    ∧ ¬ (host_option "0.4.9" = "--host=0.0.0.0") := by
  constructor
  · decide
  · decide

/-- C3 amended: with version string `0.4.9` the lexicographic comparison
against `0.5.0` evaluates as less-than (and the gate is strictly greater,
line 205), so `--host=0.0.0.0` is NOT included in the rendered startup
command: the host slot is empty and the CMD line carries no host flag. -/
theorem claim3_amended :
    strGt "0.4.9" "0.5.0" = false
    ∧ host_option "0.4.9" = ""
    ∧ (dockerfileLines a049 false false).get? 45 =
        some "CMD adk api_server --port=80    \"/app/agents\"" := by
  refine ⟨by decide, by decide, by decide⟩

/-- C4 counterexample: with no explicit `requirements_file` and a staged
tree that already contains a `requirements.txt` (content
`custom-package`), `to_agent_engine` hands `agent_engines.create` the
staged manifest with its original content, and does not generate the
default manifest naming the fixed package set — refuting the claimed
resolution order (explicit, else generated default, else staged tree). -/
theorem claim4_counterexample :
    (to_agent_engine aeA fsAeReq ⟨true⟩).created =
      some ⟨"/t/requirements.txt", some (Entry.file "custom-package"), none, ["/t"]⟩
    ∧ some (Entry.file "custom-package") ≠ some (Entry.file defaultRequirements) := by
  refine ⟨by decide, by decide⟩

/-- C4 amended: the dependency manifest is resolved by trying, in this
order: the explicitly supplied `requirements_file` path; else the
`requirements.txt` already present in the staged (copied) tree; else a
freshly generated default file naming the fixed package set, written into
the staged tree. -/
theorem claim4_requirements_resolution : ∀ (a : AgentEngineArgs) (fs : FS) (env : AEEnv),
    aeCopyOk a fs = true →
    (optTruthy a.requirements_file = true →
      (to_agent_engine a fs env).created.map CreateCall.requirements
        = some (a.requirements_file.getD ""))
    ∧ (optTruthy a.requirements_file = false →
        pexists (aeStagedFs a fs) (a.temp_folder ++ "/requirements.txt") = true →
      (to_agent_engine a fs env).created.map CreateCall.requirements
          = some (a.temp_folder ++ "/requirements.txt")
      ∧ (to_agent_engine a fs env).created.map CreateCall.requirementsEntry
          = some ((aeStagedFs a fs) (a.temp_folder ++ "/requirements.txt")))
    ∧ (optTruthy a.requirements_file = false →
        pexists (aeStagedFs a fs) (a.temp_folder ++ "/requirements.txt") = false →
      (to_agent_engine a fs env).created.map CreateCall.requirements
          = some (a.temp_folder ++ "/requirements.txt")
      ∧ (to_agent_engine a fs env).created.map CreateCall.requirementsEntry
          = some (some (Entry.file defaultRequirements))) := by
  intro a fs env hc
  refine ⟨?_, ?_, ?_⟩
  · intro ht
    simp only [to_agent_engine, finalizeAE_created]
    unfold agentEngineTry
    rw [hc]
    simp only [ht, if_true]
    cases env.createOk <;> simp
  · intro ht hex
    simp only [to_agent_engine, finalizeAE_created]
    unfold agentEngineTry
    rw [hc]
    simp only [ht, hex, Bool.false_eq_true, if_false, if_true]
    cases env.createOk <;> simp
  · intro ht hex
    simp only [to_agent_engine, finalizeAE_created]
    unfold agentEngineTry
    rw [hc]
    simp only [ht, hex, Bool.false_eq_true, if_false]
    cases env.createOk <;> simp [writeFile]

/-- C4 witness: with no explicit manifest and no staged one, the resolved
manifest is the staged path and its content is the generated default. -/
theorem claim4_witness :
    (to_agent_engine aeA fsAeNoReq ⟨true⟩).created.map CreateCall.requirements
        = some (aeA.temp_folder ++ "/requirements.txt")
    ∧ (to_agent_engine aeA fsAeNoReq ⟨true⟩).created.map CreateCall.requirementsEntry
        = some (some (Entry.file defaultRequirements)) :=
  (claim4_requirements_resolution aeA fsAeNoReq ⟨true⟩ (by decide)).2.2 (by decide) (by decide)

/-- C5: in the rendered Dockerfile the number of dependency-install
instructions (lines starting `RUN pip install -r`) is exactly one for the
source-tree manifest when it is present in the copied tree (`agentReq`)
plus one for the additional manifest when staged (`addReq`), and none
otherwise; the source-tree instruction sits at line 36 and references the
manifest's staged path `/app/agents/<app_name>/requirements.txt`
(`agentDepsLine`), the slot is an empty line when the manifest is absent,
and the additional-manifest instructions sit at lines 40-41, after the
source-tree instruction. -/
theorem claim5_install_instructions : ∀ (a : CloudRunArgs) (agentReq addReq : Bool),
    ((dockerfileLines a agentReq addReq).filter isInstallLine).length
      = (if agentReq then 1 else 0) + (if addReq then 1 else 0)
    ∧ (agentReq = true →
        (dockerfileLines a agentReq addReq).get? 36 = some (agentDepsLine a.app_name))
    ∧ (agentReq = false →
        (dockerfileLines a agentReq addReq).get? 36 = some "")
    ∧ (addReq = true →
        (dockerfileLines a agentReq addReq).get? 40 = some extraCopyLine
        ∧ (dockerfileLines a agentReq addReq).get? 41 = some extraRunLine) := by
  intro a agentReq addReq
  refine ⟨?_, ?_, ?_, ?_⟩
  · cases agentReq <;> cases addReq <;>
      simp +decide [dockerfileLines, install_agent_deps, agentDepsLine,
        install_additional_deps, List.filter_cons, List.filter_append,
        isInstall_envProj, isInstall_envLoc, isInstall_runWhl, isInstall_copyShort,
        isInstall_copyAgents, isInstall_expose, isInstall_cmd, isInstall_agentDepsLine]
  · intro h
    subst h
    rfl
  · intro h
    subst h
    rfl
  · intro h
    subst h
    exact ⟨rfl, rfl⟩

/-- C5 witness: with both manifests staged the rendered recipe has two
install lines, the source-tree one at line 36 and the additional ones at
lines 40-41. -/
theorem claim5_witness :
    ((dockerfileLines a8 true true).filter isInstallLine).length
      = (if true then 1 else 0) + (if true then 1 else 0)
    ∧ (dockerfileLines a8 true true).get? 36 = some (agentDepsLine a8.app_name)
    ∧ (dockerfileLines a8 true true).get? 40 = some extraCopyLine
    ∧ (dockerfileLines a8 true true).get? 41 = some extraRunLine :=
  ⟨(claim5_install_instructions a8 true true).1,
   (claim5_install_instructions a8 true true).2.1 rfl,
   ((claim5_install_instructions a8 true true).2.2.2 rfl).1,
   ((claim5_install_instructions a8 true true).2.2.2 rfl).2⟩

/-- C6: whenever validation passes and staging succeeds, exactly one
external deploy invocation is recorded (whether or not it then succeeds),
and its argument list is exactly `gcloud run deploy <service_name>
--source <temp_folder> --project <resolved project> [--region <region>,
iff one was given] --port <port> --verbosity <verbosity> --labels
created-by=adk` (see `deployCommand`). -/
theorem claim6_deploy_invocation : ∀ (a : CloudRunArgs) (fs : FS) (env : Env),
    validationOk a fs = true → stagingOk a fs = true →
    deployCalls (to_cloud_run a fs env)
      = [deployCommand a (resolveProject a.project env)] := by
  intro a fs env hv hs
  unfold validationOk at hv
  unfold stagingOk at hs
  simp only [Bool.and_eq_true] at hv hs
  obtain ⟨⟨⟨h1, h2⟩, h3⟩, h4⟩ := hv
  obtain ⟨⟨g1, g2⟩, g3⟩ := hs
  unfold deployCalls
  simp only [to_cloud_run, h1, h2, h3, h4, Bool.not_true, Bool.false_eq_true, if_false,
    finalizeCR_invocations]
  simp only [cloudRunTry, g1, g2, g3, if_true]
  unfold resolveProject resolveProjectCalls
  cases htr : optTruthy a.project <;> cases hd : env.deployOk <;>
    simp +decide [isDeployCall, deployCommand, List.filter_cons]

/-- C6 witness: the valid request `a8` on `fs8` produces exactly the
expected deploy invocation. -/
theorem claim6_witness :
    deployCalls (to_cloud_run a8 fs8 envW)
      = [deployCommand a8 (resolveProject a8.project envW)] :=
  claim6_deploy_invocation a8 fs8 envW (by decide) (by decide)

/-- C7: rendering is deterministic: two runs with the same Deployment
Request and the same staged-tree conditions (presence of the source-tree
manifest, presence of the additional manifest) that render a Dockerfile
at all render byte-identical text, regardless of any other difference in
filesystem state or environment. -/
theorem claim7_render_deterministic :
    ∀ (a : CloudRunArgs) (fs1 fs2 : FS) (env1 env2 : Env) (d1 d2 : String),
    stagedReqBit a fs1 = stagedReqBit a fs2 → addBit a fs1 = addBit a fs2 →
    (to_cloud_run a fs1 env1).dockerfile = some d1 →
    (to_cloud_run a fs2 env2).dockerfile = some d2 →
    d1 = d2 := by
  intro a fs1 fs2 env1 env2 d1 d2 hr ha h1 h2
  rw [dockerfile_of_some a fs1 env1 d1 h1, dockerfile_of_some a fs2 env2 d2 h2, hr, ha]

/-- C7 witness: two concrete runs differing in environment agree on the
rendered text. -/
theorem claim7_witness :
    dockerfile_content a8 true false = dockerfile_content a8 true false :=
  claim7_render_deterministic a8 fs8 fs8 envW ⟨"other", false⟩
    (dockerfile_content a8 true false) (dockerfile_content a8 true false)
    rfl rfl rfl rfl

/-- C8: for the request `a8` (existing valid wheel, source directory with
a `requirements.txt`, app name `myagent`, port 8080, UI disabled) the
rendered Dockerfile is the template at conditions (source-tree manifest
present, no additional manifest); its startup command is the non-UI
`api_server` command bound to port 8080 (not `web`), and exactly one
dependency-install line appears. -/
theorem claim8_scenario :
    (to_cloud_run a8 fs8 envW).dockerfile = some (dockerfile_content a8 true false)
    ∧ (dockerfileLines a8 true false).get? 45 =
        some "CMD adk api_server --port=8080 --host=0.0.0.0   \"/app/agents\""
    ∧ ((dockerfileLines a8 true false).filter isInstallLine).length = 1
    ∧ commandOption a8.with_ui = "api_server" := by
  refine ⟨rfl, by decide, by decide, by decide⟩

/-- C9: two `to_cloud_run` calls whose requests differ only in
`artifact_storage_uri` and/or `agent_module` have identical observable
outcomes — byte-identical Dockerfile, identical subprocess invocations,
identical result and final filesystem — since the template has no
placeholder for either value and neither reaches the deploy command. -/
theorem claim9_noninterference :
    ∀ (a : CloudRunArgs) (fs : FS) (env : Env) (u m : Option String),
    to_cloud_run { a with artifact_storage_uri := u, agent_module := m } fs env
      = to_cloud_run a fs env := by
  intro a fs env u m
  rfl

/-- C10: `to_agent_engine` performs no validation before mutating the
filesystem: when the staging directory already exists and the agent
source folder does not, the staging directory is removed all the same,
and the call then fails — not with a validation error (the model has
none), but with the copy-step failure propagating through the cleanup
handler (whose own `rmtree` raises on the never-created staging
directory, Python `finally` semantics). -/
theorem claim10_no_validation : ∀ (a : AgentEngineArgs) (fs : FS) (env : AEEnv),
    pexists fs a.temp_folder = true → pexists fs a.agent_folder = false →
    (to_agent_engine a fs env).fs a.temp_folder = none
    ∧ (to_agent_engine a fs env).res = Except.error AEErr.cleanupFailedAfterCopy
    ∧ (to_agent_engine a fs env).created = none := by
  intro a fs env h1 h2
  have hfs : fs a.agent_folder = none := pexists_eq_false h2
  have hclean : cleanTemp a.temp_folder fs = rmtreeFn fs a.temp_folder := by
    simp [cleanTemp, h1]
  have hdir : isDirAt (cleanTemp a.temp_folder fs) a.agent_folder = false := by
    rw [hclean]
    unfold isDirAt rmtreeFn
    cases hpu : pathUnder a.temp_folder a.agent_folder <;> simp [hpu, hfs]
  have hcopy : aeCopyOk a fs = false := by
    unfold aeCopyOk
    rw [hdir]
    rfl
  have htemp : pexists (cleanTemp a.temp_folder fs) a.temp_folder = false := by
    rw [hclean]
    unfold pexists
    rw [rmtree_self]
    rfl
  unfold to_agent_engine agentEngineTry
  rw [hcopy]
  simp only [Bool.false_eq_true, if_false]
  unfold finalizeAE
  simp [htemp, pexists_eq_false htemp]

/-- C10 witness: a stale staging directory `/t` is deleted even though the
agent folder `/missing` does not exist, and the call fails afterwards. -/
theorem claim10_witness :
    (to_agent_engine aeMissing fsStale ⟨true⟩).fs aeMissing.temp_folder = none
    ∧ (to_agent_engine aeMissing fsStale ⟨true⟩).res
        = Except.error AEErr.cleanupFailedAfterCopy
    ∧ (to_agent_engine aeMissing fsStale ⟨true⟩).created = none :=
  claim10_no_validation aeMissing fsStale ⟨true⟩ (by decide) (by decide)

end CliDeploy

